import Mathlib

/-!
Shallow embedding of the Build-vs-Buy Monte Carlo simulation core
(`build_buy_app/src/simulation.py`, class `BuildVsBuySimulator`) together
with the numeric-coercion behaviour of its parameter extraction.

Modelling conventions:
* Python/numpy floats are modelled by real numbers `ℝ`; machine rounding is
  ignored, so "bit-identical" becomes exact equality of the modelled values.
* A numpy array of length `n` is modelled as a function `ℕ → ℝ` (only the
  indices `i < n` are ever consumed, mirroring the fixed array shapes).
* The numpy global random generator is modelled as a state `NpState`
  carrying an abstract stream of standard-normal draws and a position.
  `np.random.normal(mean, std, n)` reads `n` consecutive stream entries as
  `mean + std * z` and advances the position by `n`; `np.random.seed(k)`
  replaces the state by the stream determined by the seed.
* Python values appearing in the input dict are modelled by `PyVal`
  (missing key / None / number / string); `float(...)` is modelled by
  `pyFloat`, which fails (models a raised ValueError/TypeError) on
  non-numeric strings, and the Python idiom `params.get(k, d) or d` by
  `pyOr`.
-/

noncomputable section

namespace BuildBuy

/-- A Python value that can sit in a numeric field of the input dict:
a missing key, `None`, a number, or a string. -/
inductive PyVal where
  | missing : PyVal
  | pynone : PyVal
  | num : ℝ → PyVal
  | str : String → PyVal

/-- Decimal-digit value of a character, when it is a digit. -/
def charDigit (c : Char) : Option ℕ :=
  if c.isDigit then some (c.toNat - 48) else none

/-- Accumulate a run of decimal digits into a natural number (left fold). -/
def foldDigits (cs : List Char) : Option ℕ :=
  cs.foldl (fun acc c => do
    let a ← acc
    let d ← charDigit c
    pure (a * 10 + d)) (some 0)

/-- Model of Python `float(s)` on strings, for the sign/digits/fraction
grammar `[+|-] digits [. digits]` (with at least one digit overall);
every string this parser accepts is accepted by Python `float`, and
strings such as `"abc"` are rejected by both. -/
def parseFloat (s : String) : Option ℚ :=
  let cs := s.toList
  let sign : ℚ × List Char :=
    match cs with
    | '-' :: r => (-1, r)
    | '+' :: r => (1, r)
    | r => (1, r)
  let intDigits := sign.2.takeWhile Char.isDigit
  let rest := sign.2.dropWhile Char.isDigit
  match rest with
  | [] =>
    if intDigits.isEmpty then none
    else do
      let n ← foldDigits intDigits
      pure (sign.1 * n)
  | '.' :: fracPart =>
    if fracPart.any (fun c => ¬ c.isDigit) then none
    else if intDigits.isEmpty ∧ fracPart.isEmpty then none
    else do
      let n ← foldDigits intDigits
      let f ← foldDigits fracPart
      pure (sign.1 * ((n : ℚ) + (f : ℚ) / (10 : ℚ) ^ fracPart.length))
  | _ => none

/-- Model of Python `float(v)`: numbers pass through, strings are parsed
(raising, i.e. `.error`, when unparseable), `None` (`TypeError`) and a
missing value fail. -/
def pyFloat (v : PyVal) : Except Unit ℝ :=
  match v with
  | .num x => .ok x
  | .str s =>
    match parseFloat s with
    | some q => .ok (q : ℝ)
    | none => .error ()
  | .pynone => .error ()
  | .missing => .error ()

/-- Model of the idiom `params.get(k, d) or d`: a missing key, `None`,
the number `0` and the empty string are falsy and are replaced by the
default `d`. -/
def pyOr (v : PyVal) (d : ℝ) : PyVal :=
  match v with
  | .missing => .num d
  | .pynone => .num d
  | .num x => if x = 0 then .num d else .num x
  | .str s => if s = "" then .num d else .str s

/-- Model of `float(params.get(k, d) or d)`, the coercion applied to every
numeric field by the four `_extract_*_parameters` methods. -/
def efield (v : PyVal) (d : ℝ) : Except Unit ℝ :=
  pyFloat (pyOr v d)

/-- The input mapping passed to `simulate`, restricted to the keys the
simulator reads. A key that is absent from the Python dict is `.missing`. -/
structure ParamsDict where
  build_timeline : PyVal := .missing
  build_timeline_std : PyVal := .missing
  fte_cost : PyVal := .missing
  fte_cost_std : PyVal := .missing
  fte_count : PyVal := .missing
  useful_life : PyVal := .missing
  prob_success : PyVal := .missing
  wacc : PyVal := .missing
  misc_costs : PyVal := .missing
  tech_risk : PyVal := .missing
  vendor_risk : PyVal := .missing
  market_risk : PyVal := .missing
  maint_opex : PyVal := .missing
  maint_opex_std : PyVal := .missing
  capex : PyVal := .missing
  amortization : PyVal := .missing
  product_price : PyVal := .missing
  subscription_price : PyVal := .missing
  subscription_increase : PyVal := .missing
  buy_selector : List String := []

/-- Constructor configuration of `BuildVsBuySimulator`. -/
structure Config where
  n_simulations : ℕ := 1000
  random_seed : ℕ := 42

/-- Typed core parameters produced by `_extract_core_parameters`. -/
structure CoreParams where
  build_timeline : ℝ
  build_timeline_std : ℝ
  fte_cost : ℝ
  fte_cost_std : ℝ
  fte_count : ℝ
  useful_life : ℝ
  prob_success : ℝ
  wacc : ℝ
  misc_costs : ℝ

/-- Typed risk parameters produced by `_extract_risk_parameters`. -/
structure RiskParams where
  tech_risk : ℝ
  vendor_risk : ℝ
  market_risk : ℝ

/-- Typed cost parameters produced by `_extract_cost_parameters`. -/
structure CostParams where
  maint_opex : ℝ
  maint_opex_std : ℝ
  capex : ℝ
  amortization : ℝ

/-- Typed buy-side parameters produced by `_extract_buy_parameters`. -/
structure BuyParams where
  product_price : ℝ
  subscription_price : ℝ
  subscription_increase : ℝ
  buy_selector : List String

/-- `_extract_core_parameters`: coerce every field with
`float(params.get(k, default) or default)`, floor the `_std` fields at 0,
clip `prob_success/100` to `[0.01, 1.0]` and divide `wacc` by 100. -/
def extract_core (p : ParamsDict) : Except Unit CoreParams := do
  let build_timeline ← efield p.build_timeline 12
  let build_timeline_std ← efield p.build_timeline_std 0
  let fte_cost ← efield p.fte_cost 150000
  let fte_cost_std ← efield p.fte_cost_std 0
  let fte_count ← efield p.fte_count 1
  let useful_life ← efield p.useful_life 5
  let prob_success ← efield p.prob_success 80
  let wacc ← efield p.wacc 8
  let misc_costs ← efield p.misc_costs 0
  return { build_timeline := build_timeline
           build_timeline_std := max build_timeline_std 0
           fte_cost := fte_cost
           fte_cost_std := max fte_cost_std 0
           fte_count := fte_count
           useful_life := useful_life
           prob_success := min (max (prob_success / 100) 0.01) 1
           wacc := wacc / 100
           misc_costs := misc_costs }

/-- `_extract_risk_parameters`. -/
def extract_risk (p : ParamsDict) : Except Unit RiskParams := do
  let tech_risk ← efield p.tech_risk 0
  let vendor_risk ← efield p.vendor_risk 0
  let market_risk ← efield p.market_risk 0
  return { tech_risk := tech_risk, vendor_risk := vendor_risk, market_risk := market_risk }

/-- `_extract_cost_parameters`. -/
def extract_cost (p : ParamsDict) : Except Unit CostParams := do
  let maint_opex ← efield p.maint_opex 0
  let maint_opex_std ← efield p.maint_opex_std 0
  let capex ← efield p.capex 0
  let amortization ← efield p.amortization 0
  return { maint_opex := maint_opex
           maint_opex_std := max maint_opex_std 0
           capex := capex
           amortization := amortization }

/-- `_extract_buy_parameters`. -/
def extract_buy (p : ParamsDict) : Except Unit BuyParams := do
  let product_price ← efield p.product_price 0
  let subscription_price ← efield p.subscription_price 0
  let subscription_increase ← efield p.subscription_increase 0
  return { product_price := product_price
           subscription_price := subscription_price
           subscription_increase := subscription_increase
           buy_selector := p.buy_selector }

/-- State of the numpy global random generator: an abstract stream of
standard-normal draws together with the current position in it. -/
structure NpState where
  stream : ℕ → ℝ
  pos : ℕ

/-- Values produced by `np.random.normal(mean, std, n)` from state `s`:
the `i`-th sample is `mean + std * z` for the next standard-normal stream
entries `z`. -/
def npNormalVec (mean std : ℝ) (s : NpState) : ℕ → ℝ :=
  fun i => mean + std * s.stream (s.pos + i)

/-- State advance caused by drawing `n` samples. -/
def npAdvance (n : ℕ) (s : NpState) : NpState :=
  ⟨s.stream, s.pos + n⟩

/-- `np.random.seed(k)`: replace the generator state by the stream
determined by the seed (the stream family is an abstract parameter). -/
def npSeed (seedStream : ℕ → ℕ → ℝ) (k : ℕ) : NpState :=
  ⟨seedStream k, 0⟩

/-- numpy round-half-to-even (`np.round`) composed with `int(...)`, which
is exact on the already-integral rounded value. -/
def npRound (x : ℝ) : ℤ :=
  if x - ⌊x⌋ < 1 / 2 then ⌊x⌋
  else if 1 / 2 < x - ⌊x⌋ then ⌊x⌋ + 1
  else if Even ⌊x⌋ then ⌊x⌋ else ⌊x⌋ + 1

/-- `_generate_samples(mean, std, n_sim)`: if `std > 0` draw
`np.random.normal(mean, std, n)` and replace non-positive samples by
`mean` (`np.where(samples <= 0, mean, samples)`), consuming `n` stream
entries; otherwise return the constant vector `np.full(n, mean)` without
touching the generator. -/
def generate_samples (mean std : ℝ) (n : ℕ) (s : NpState) : (ℕ → ℝ) × NpState :=
  if 0 < std then
    let raw := npNormalVec mean std s
    (fun i => if raw i ≤ 0 then mean else raw i, npAdvance n s)
  else
    (fun _ => mean, s)

/-- Body of the per-sample loop of `_calculate_labor_pv_year_by_year`:
mid-period discounting of one labor cost over one timeline. -/
def labor_pv_one (labor_cost timeline_months wacc : ℝ) : ℝ :=
  let timeline_years := timeline_months / 12
  if timeline_years ≤ 1 then
    labor_cost / (1 + wacc) ^ (0.5 : ℝ)
  else
    let years_full : ℕ := ⌊timeline_years⌋₊
    let remaining_fraction := timeline_years - years_full
    let cost_per_year := labor_cost / timeline_years
    (∑ year in Finset.range years_full,
        cost_per_year / (1 + wacc) ^ ((year : ℝ) + 0.5)) +
      (if 0 < remaining_fraction then
          cost_per_year * remaining_fraction /
            (1 + wacc) ^ ((years_full : ℝ) + remaining_fraction / 2)
        else 0)

/-- Body of the per-sample loop of `_calculate_amortization_pv`: a fixed
monthly payment for `int(np.round(timeline))` months, discounted at the
compounding-converted monthly rate `(1+wacc)^(1/12) - 1`. -/
def amortization_pv_one (amortization timeline wacc : ℝ) : ℝ :=
  let monthly_rate := (1 + wacc) ^ ((1 : ℝ) / 12) - 1
  ∑ m in Finset.Icc 1 (npRound timeline).toNat,
    amortization / (1 + monthly_rate) ^ m

/-- `_calculate_amortization_pv`: zero vector when `amortization ≤ 0`,
otherwise the per-sample PV over each simulated timeline. -/
def calculate_amortization_pv (amortization : ℝ) (timeline_samples : ℕ → ℝ)
    (wacc : ℝ) : ℕ → ℝ :=
  if amortization ≤ 0 then fun _ => 0
  else fun i => amortization_pv_one amortization (timeline_samples i) wacc

/-- Body of the per-sample loop of `_calculate_opex_pv`: an annual opex
charge over `useful_life` years, discounted annually from year 1. -/
def opex_pv_one (opex : ℝ) (useful_life : ℕ) (wacc : ℝ) : ℝ :=
  ∑ y in Finset.Icc 1 useful_life, opex / (1 + wacc) ^ y

/-- `_calculate_opex_pv`: zero vector (and no generator draws) when
`maint_opex ≤ 0`; otherwise sample opex with uncertainty and discount each
sample over `int(np.round(useful_life))` years. -/
def calculate_opex_pv (cost : CostParams) (core : CoreParams) (n : ℕ)
    (s : NpState) : (ℕ → ℝ) × NpState :=
  if cost.maint_opex ≤ 0 then (fun _ => 0, s)
  else
    let gen := generate_samples cost.maint_opex cost.maint_opex_std n s
    (fun i => opex_pv_one (gen.1 i) (npRound core.useful_life).toNat core.wacc, gen.2)

/-- `_apply_risk_factors`: additive total risk percentage; unchanged costs
when it is non-positive; otherwise, for more than one simulation, relative
Gaussian jitter `np.random.normal(0, 0.05, n)` around the base multiplier
`1 + total/100` clipped below at 1 (`np.clip(..., 1.0, None)`), and for at
most one simulation the deterministic base multiplier. -/
def apply_risk_factors (costs : ℕ → ℝ) (risk : RiskParams) (n_sim : ℕ)
    (s : NpState) : (ℕ → ℝ) × NpState :=
  let total_risk_percent := risk.tech_risk + risk.vendor_risk + risk.market_risk
  if total_risk_percent ≤ 0 then (costs, s)
  else
    let risk_multiplier := 1 + total_risk_percent / 100
    if 1 < n_sim then
      let risk_variation := npNormalVec 0 0.05 s
      (fun i => costs i * max (risk_multiplier * (1 + risk_variation i)) 1,
        npAdvance n_sim s)
    else
      (fun i => costs i * risk_multiplier, s)

/-- `_clean_samples`: over the reals the `np.isnan`/`np.isinf` mask is
identically false, so every sample is kept unchanged. -/
def clean_samples (samples : ℕ → ℝ) : ℕ → ℝ := samples

/-- `_simulate_build_costs`: sample timeline and FTE cost, form the
success-adjusted nominal labor cost, discount each component under its
timing rule, sum, apply risk, and clean. Generator draws occur in the
source order: timeline, FTE cost, opex, risk. -/
def simulate_build_costs (cfg : Config) (core : CoreParams) (risk : RiskParams)
    (cost : CostParams) (s : NpState) : (ℕ → ℝ) × NpState :=
  let n := cfg.n_simulations
  let tgen := generate_samples core.build_timeline core.build_timeline_std n s
  let timeline_samples := tgen.1
  let fgen := generate_samples core.fte_cost core.fte_cost_std n tgen.2
  let fte_cost_samples := fgen.1
  let nominal_labor_cost := fun i =>
    timeline_samples i / 12 * fte_cost_samples i * core.fte_count
  let success_adjusted_labor := fun i => nominal_labor_cost i / core.prob_success
  let labor_cost_pv := fun i =>
    labor_pv_one (success_adjusted_labor i) (timeline_samples i) core.wacc
  let amort_pv := calculate_amortization_pv cost.amortization timeline_samples core.wacc
  let ogen := calculate_opex_pv cost core n fgen.2
  let total_cost_pv := fun i =>
    labor_cost_pv i + cost.capex + amort_pv i + ogen.1 i + core.misc_costs
  let rgen := apply_risk_factors total_cost_pv risk n ogen.2
  (clean_samples rgen.1, rgen.2)

/-- `_calculate_buy_costs`: optional undiscounted one-time purchase plus an
optional 1-based escalating subscription annuity discounted at `wacc` over
`int(np.round(useful_life))` years. -/
def calculate_buy_costs (buy : BuyParams) (core : CoreParams) : ℝ :=
  let t0 : ℝ := 0
  let t1 := if "one_time" ∈ buy.buy_selector then t0 + buy.product_price else t0
  if "subscription" ∈ buy.buy_selector then
    let subscription_increase := buy.subscription_increase / 100
    let useful_life := (npRound core.useful_life).toNat
    t1 + ∑ year in Finset.Icc 1 useful_life,
      buy.subscription_price * (1 + subscription_increase) ^ (year - 1) /
        (1 + core.wacc) ^ year
  else t1

/-- `np.mean` of a list (0 on the empty list, where numpy yields NaN). -/
def npMean (l : List ℝ) : ℝ := l.sum / l.length

/-- `np.sort`, modelled by insertion sort (any correct sort agrees). -/
def npSort (l : List ℝ) : List ℝ := l.insertionSort (· ≤ ·)

/-- `np.percentile` with the default linear interpolation between the two
order statistics surrounding the fractional index `q/100 * (n-1)`. -/
def npPercentile (l : List ℝ) (q : ℝ) : ℝ :=
  let srt := npSort l
  let idx : ℝ := q / 100 * ((l.length : ℝ) - 1)
  let lo := ⌊idx⌋₊
  let hi := ⌈idx⌉₊
  srt.getD lo 0 + (idx - lo) * (srt.getD hi 0 - srt.getD lo 0)

/-- The dictionary built by `_calculate_results`. -/
structure BaseResults where
  expected_build_cost : ℝ
  build_cost_p10 : ℝ
  build_cost_p50 : ℝ
  build_cost_p90 : ℝ
  risk_adjusted_cost : ℝ
  buy_total_cost : ℝ
  npv_difference : ℝ
  recommendation : String
  cost_distribution : List ℝ

/-- `_calculate_results`: expectation, percentiles, the P90 echoed as
`risk_adjusted_cost`, the NPV difference and the recommendation. -/
def calculate_results (build_cost_distribution : List ℝ) (buy_total_cost : ℝ) :
    BaseResults :=
  let expected_build_cost := npMean build_cost_distribution
  let ci_low := npPercentile build_cost_distribution 10
  let ci_high := npPercentile build_cost_distribution 90
  let ci_median := npPercentile build_cost_distribution 50
  let risk_adjusted_cost := ci_high
  let npv_difference := buy_total_cost - expected_build_cost
  let recommendation := if 0 < npv_difference then "Build" else "Buy"
  { expected_build_cost := expected_build_cost
    build_cost_p10 := ci_low
    build_cost_p50 := ci_median
    build_cost_p90 := ci_high
    risk_adjusted_cost := risk_adjusted_cost
    buy_total_cost := buy_total_cost
    npv_difference := npv_difference
    recommendation := recommendation
    cost_distribution := build_cost_distribution }

/-- The full result mapping returned by `simulate`, after
`results.update({...})` adds the echoed diagnostic fields. -/
structure SimResult where
  expected_build_cost : ℝ
  build_cost_p10 : ℝ
  build_cost_p50 : ℝ
  build_cost_p90 : ℝ
  risk_adjusted_cost : ℝ
  buy_total_cost : ℝ
  npv_difference : ℝ
  recommendation : String
  cost_distribution : List ℝ
  tech_risk : ℝ
  vendor_risk : ℝ
  market_risk : ℝ
  prob_success : ℝ
  confidence_level : ℝ
  wacc : ℝ
  useful_life : ℝ

/-- The body of `simulate` after parameter extraction: Monte Carlo build
costs, deterministic buy cost, result summarisation and the echo fields. -/
def simulate_typed (cfg : Config) (core : CoreParams) (risk : RiskParams)
    (cost : CostParams) (buy : BuyParams) (s : NpState) : SimResult × NpState :=
  let bgen := simulate_build_costs cfg core risk cost s
  let build_cost_distribution := (List.range cfg.n_simulations).map bgen.1
  let buy_total_cost := calculate_buy_costs buy core
  let r := calculate_results build_cost_distribution buy_total_cost
  ({ expected_build_cost := r.expected_build_cost
     build_cost_p10 := r.build_cost_p10
     build_cost_p50 := r.build_cost_p50
     build_cost_p90 := r.build_cost_p90
     risk_adjusted_cost := r.risk_adjusted_cost
     buy_total_cost := r.buy_total_cost
     npv_difference := r.npv_difference
     recommendation := r.recommendation
     cost_distribution := r.cost_distribution
     tech_risk := risk.tech_risk
     vendor_risk := risk.vendor_risk
     market_risk := risk.market_risk
     prob_success := core.prob_success * 100
     confidence_level := 80
     wacc := core.wacc * 100
     useful_life := core.useful_life }, bgen.2)

/-- `BuildVsBuySimulator.simulate(params)` acting on the numpy global
generator state: re-seed first, then extract the four parameter groups
(propagating any coercion failure as a raised exception), then run the
deterministic pipeline. -/
def pySimulate (cfg : Config) (seedStream : ℕ → ℕ → ℝ) (params : ParamsDict)
    (s : NpState) : Except Unit SimResult × NpState :=
  let s0 := npSeed seedStream cfg.random_seed
  match extract_core params with
  | .error e => (.error e, s0)
  | .ok core =>
    match extract_risk params with
    | .error e => (.error e, s0)
    | .ok risk =>
      match extract_cost params with
      | .error e => (.error e, s0)
      | .ok cost =>
        match extract_buy params with
        | .error e => (.error e, s0)
        | .ok buy =>
          let r := simulate_typed cfg core risk cost buy s0
          (.ok r.1, r.2)

/-! ## Helper lemmas -/

/-- Recommendation logic of `_calculate_results`, stated once for reuse
inside the claim C5 proof only through its statement shape. -/
theorem calcResults_rec (dist : List ℝ) (buy : ℝ) :
    ((calculate_results dist buy).recommendation = "Build" ↔
      0 < (calculate_results dist buy).npv_difference) ∧
    ((calculate_results dist buy).npv_difference = 0 →
      (calculate_results dist buy).recommendation = "Buy") ∧
    (calculate_results dist buy).npv_difference =
      buy - (calculate_results dist buy).expected_build_cost := by
  unfold calculate_results
  dsimp only
  split_ifs with h
  · refine ⟨by simp [h], fun h0 => ?_, rfl⟩
    rw [h0] at h
    exact absurd h (lt_irrefl 0)
  · exact ⟨by simp [h], fun _ => rfl, rfl⟩

/-- Reduction of `Except` bind on a success value. -/
theorem ok_bind {α β : Type} (a : α) (f : α → Except Unit β) :
    (Except.ok a : Except Unit α) >>= f = f a := rfl

/-- Reduction of `Except` bind on a failure value. -/
theorem error_bind {α β : Type} (f : α → Except Unit β) :
    (Except.error () : Except Unit α) >>= f = Except.error () := rfl

/-- A dict value on which the coercion `float(v or default)` cannot raise:
anything except a non-empty string (numbers, `None`, a missing key and the
empty string are all safe). -/
def Floatish (v : PyVal) : Prop :=
  match v with
  | .str s => s = ""
  | _ => True

/-- On a `Floatish` value the field coercion succeeds. -/
theorem efield_ok (v : PyVal) (d : ℝ) (h : Floatish v) :
    ∃ x, efield v d = .ok x := by
  cases v with
  | missing => exact ⟨d, rfl⟩
  | pynone => exact ⟨d, rfl⟩
  | num x =>
    unfold efield pyOr pyFloat
    dsimp only
    split_ifs <;> exact ⟨_, rfl⟩
  | str s =>
    have hs : s = "" := h
    subst hs
    exact ⟨d, rfl⟩

/-! ## Claims -/

/-- C1: for every parameter mapping and every fixed `(n_simulations,
random_seed)` configuration, two calls to `simulate()` with the same
inputs produce bit-identical results (in particular bit-identical
`cost_distribution` vectors), whatever the numpy generator state was
before each call — the PRNG is re-seeded at entry of every call. The
second conjunct instantiates this for two back-to-back calls where the
second starts from the generator state the first left behind. -/
theorem simulate_two_run_deterministic (cfg : Config) (seedStream : ℕ → ℕ → ℝ)
    (p : ParamsDict) (s1 s2 : NpState) :
    (pySimulate cfg seedStream p s1).1 = (pySimulate cfg seedStream p s2).1 ∧
    (pySimulate cfg seedStream p ((pySimulate cfg seedStream p s1).2)).1 =
      (pySimulate cfg seedStream p s1).1 :=
  ⟨rfl, rfl⟩

/-- C5: the returned recommendation is `"Build"` iff
`npv_difference = buy_total_cost − expected_build_cost` is strictly
positive, and `"Buy"` otherwise; a tie at exactly 0 yields `"Buy"`. -/
theorem recommendation_consistency (cfg : Config) (core : CoreParams)
    (risk : RiskParams) (cost : CostParams) (buy : BuyParams) (s : NpState) :
    ((simulate_typed cfg core risk cost buy s).1.recommendation = "Build" ↔
      0 < (simulate_typed cfg core risk cost buy s).1.npv_difference) ∧
    ((simulate_typed cfg core risk cost buy s).1.npv_difference = 0 →
      (simulate_typed cfg core risk cost buy s).1.recommendation = "Buy") ∧
    (simulate_typed cfg core risk cost buy s).1.npv_difference =
      (simulate_typed cfg core risk cost buy s).1.buy_total_cost -
        (simulate_typed cfg core risk cost buy s).1.expected_build_cost :=
  calcResults_rec
    ((List.range cfg.n_simulations).map (simulate_build_costs cfg core risk cost s).1)
    (calculate_buy_costs buy core)

/-- C6: the buy cost equals the one-time product price (undiscounted, when
selected) plus the discounted escalating subscription annuity over
`round(useful_life)` years (when selected); selecting both is additive and
selecting neither yields exactly 0. -/
theorem buy_cost_formula (buy : BuyParams) (core : CoreParams) :
    calculate_buy_costs buy core =
      (if "one_time" ∈ buy.buy_selector then buy.product_price else 0) +
      (if "subscription" ∈ buy.buy_selector then
          ∑ year in Finset.Icc 1 (npRound core.useful_life).toNat,
            buy.subscription_price * (1 + buy.subscription_increase / 100) ^ (year - 1) /
              (1 + core.wacc) ^ year
        else 0) ∧
    calculate_buy_costs { buy with buy_selector := ["one_time", "subscription"] } core =
      calculate_buy_costs { buy with buy_selector := ["one_time"] } core +
        calculate_buy_costs { buy with buy_selector := ["subscription"] } core ∧
    calculate_buy_costs { buy with buy_selector := [] } core = 0 := by
  refine ⟨?_, ?_, ?_⟩
  · unfold calculate_buy_costs
    dsimp only
    split_ifs <;> ring
  · have hso : ¬ (("subscription" : String) = "one_time") := by decide
    have hos : ¬ (("one_time" : String) = "subscription") := by decide
    unfold calculate_buy_costs
    simp only [List.mem_cons, List.mem_singleton, List.not_mem_nil]
    norm_num
    rw [if_neg hso, if_neg hos]
    ring
  · unfold calculate_buy_costs
    simp

/-- C9: every result returned by `simulate()` carries a
`risk_adjusted_cost` key whose value equals `build_cost_p90`, and a
`confidence_level` key whose value is the constant 80. -/
theorem extra_result_keys (cfg : Config) (core : CoreParams) (risk : RiskParams)
    (cost : CostParams) (buy : BuyParams) (s : NpState) :
    (simulate_typed cfg core risk cost buy s).1.risk_adjusted_cost =
      (simulate_typed cfg core risk cost buy s).1.build_cost_p90 ∧
    (simulate_typed cfg core risk cost buy s).1.confidence_level = 80 :=
  ⟨rfl, rfl⟩

/-- C2 counterexample: a mapping whose `build_timeline` field holds the
unparseable string `"abc"` makes `simulate()` raise (modelled as
`.error`), instead of falling back to the documented default —
`_extract_core_parameters` uses the raw Python `float`, not `safe_float`. -/
theorem simulate_raises_on_abc :
    (pySimulate {} (fun _ _ => 0) { build_timeline := .str "abc" }
        ⟨fun _ => 0, 0⟩).1 = .error () := by
  have hne : ¬ (("abc" : String) = "") := by decide
  have hp : parseFloat "abc" = none := by decide
  have he : efield (PyVal.str "abc") 12 = .error () := by
    unfold efield pyOr
    dsimp only
    rw [if_neg hne]
    unfold pyFloat
    dsimp only
    rw [hp]
  unfold pySimulate extract_core
  dsimp only
  rw [he, error_bind]

/-- C2 amended: `simulate()` never raises provided every numeric field is
a number, `None`, missing, or the empty string (the falsy values fall back
to their defaults); a non-empty unparseable string, by contrast, raises. -/
theorem simulate_ok_of_floatish (cfg : Config) (seedStream : ℕ → ℕ → ℝ)
    (p : ParamsDict) (s : NpState)
    (h1 : Floatish p.build_timeline) (h2 : Floatish p.build_timeline_std)
    (h3 : Floatish p.fte_cost) (h4 : Floatish p.fte_cost_std)
    (h5 : Floatish p.fte_count) (h6 : Floatish p.useful_life)
    (h7 : Floatish p.prob_success) (h8 : Floatish p.wacc)
    (h9 : Floatish p.misc_costs) (h10 : Floatish p.tech_risk)
    (h11 : Floatish p.vendor_risk) (h12 : Floatish p.market_risk)
    (h13 : Floatish p.maint_opex) (h14 : Floatish p.maint_opex_std)
    (h15 : Floatish p.capex) (h16 : Floatish p.amortization)
    (h17 : Floatish p.product_price) (h18 : Floatish p.subscription_price)
    (h19 : Floatish p.subscription_increase) :
    ∃ r s', pySimulate cfg seedStream p s = (.ok r, s') := by
  obtain ⟨x1, e1⟩ := efield_ok p.build_timeline 12 h1
  obtain ⟨x2, e2⟩ := efield_ok p.build_timeline_std 0 h2
  obtain ⟨x3, e3⟩ := efield_ok p.fte_cost 150000 h3
  obtain ⟨x4, e4⟩ := efield_ok p.fte_cost_std 0 h4
  obtain ⟨x5, e5⟩ := efield_ok p.fte_count 1 h5
  obtain ⟨x6, e6⟩ := efield_ok p.useful_life 5 h6
  obtain ⟨x7, e7⟩ := efield_ok p.prob_success 80 h7
  obtain ⟨x8, e8⟩ := efield_ok p.wacc 8 h8
  obtain ⟨x9, e9⟩ := efield_ok p.misc_costs 0 h9
  obtain ⟨y1, f1⟩ := efield_ok p.tech_risk 0 h10
  obtain ⟨y2, f2⟩ := efield_ok p.vendor_risk 0 h11
  obtain ⟨y3, f3⟩ := efield_ok p.market_risk 0 h12
  obtain ⟨z1, g1⟩ := efield_ok p.maint_opex 0 h13
  obtain ⟨z2, g2⟩ := efield_ok p.maint_opex_std 0 h14
  obtain ⟨z3, g3⟩ := efield_ok p.capex 0 h15
  obtain ⟨z4, g4⟩ := efield_ok p.amortization 0 h16
  obtain ⟨w1, b1⟩ := efield_ok p.product_price 0 h17
  obtain ⟨w2, b2⟩ := efield_ok p.subscription_price 0 h18
  obtain ⟨w3, b3⟩ := efield_ok p.subscription_increase 0 h19
  have hc : ∃ c, extract_core p = .ok c := by
    unfold extract_core
    rw [e1, ok_bind, e2, ok_bind, e3, ok_bind, e4, ok_bind, e5, ok_bind,
      e6, ok_bind, e7, ok_bind, e8, ok_bind, e9, ok_bind]
    exact ⟨_, rfl⟩
  have hr : ∃ c, extract_risk p = .ok c := by
    unfold extract_risk
    rw [f1, ok_bind, f2, ok_bind, f3, ok_bind]
    exact ⟨_, rfl⟩
  have hco : ∃ c, extract_cost p = .ok c := by
    unfold extract_cost
    rw [g1, ok_bind, g2, ok_bind, g3, ok_bind, g4, ok_bind]
    exact ⟨_, rfl⟩
  have hb : ∃ c, extract_buy p = .ok c := by
    unfold extract_buy
    rw [b1, ok_bind, b2, ok_bind, b3, ok_bind]
    exact ⟨_, rfl⟩
  obtain ⟨c1, hc⟩ := hc
  obtain ⟨c2, hr⟩ := hr
  obtain ⟨c3, hco⟩ := hco
  obtain ⟨c4, hb⟩ := hb
  unfold pySimulate
  rw [hc, hr, hco, hb]
  exact ⟨_, _, rfl⟩

/-- C2 amended witness: the all-defaults mapping (every key missing) runs
to a successful result. -/
theorem simulate_ok_of_floatish_witness :
    ∃ r s', pySimulate {} (fun _ _ => 0) {} ⟨fun _ => 0, 0⟩ = (.ok r, s') :=
  simulate_ok_of_floatish {} (fun _ _ => 0) {} ⟨fun _ => 0, 0⟩
    trivial trivial trivial trivial trivial trivial trivial trivial trivial
    trivial trivial trivial trivial trivial trivial trivial trivial trivial
    trivial

/-- Modelled from the claim's words (deliberately not from the source, for
comparison): risk multipliers formed by ADDING Gaussian jitter of mean 0
and standard deviation 0.05 to the base multiplier, i.e.
`multiplier_i = (1 + total/100) + eps_i` with `eps_i ~ N(0, 0.05)`,
floored at 1; same degenerate branches as the source otherwise. -/
def apply_risk_factors_claimed (costs : ℕ → ℝ) (risk : RiskParams) (n_sim : ℕ)
    (s : NpState) : (ℕ → ℝ) × NpState :=
  let total_risk_percent := risk.tech_risk + risk.vendor_risk + risk.market_risk
  if total_risk_percent ≤ 0 then (costs, s)
  else
    let risk_multiplier := 1 + total_risk_percent / 100
    if 1 < n_sim then
      let eps := npNormalVec 0 0.05 s
      (fun i => costs i * max (risk_multiplier + eps i) 1, npAdvance n_sim s)
    else
      (fun i => costs i * risk_multiplier, s)

/-- C4 counterexample: with total risk 50% (base multiplier 1.5) and a
standard-normal draw of 1, the source multiplies the base multiplier by
`1 + 0.05·z` (giving 1.575), which differs from adding `N(0, 0.05)` jitter
to the base multiplier (giving 1.55): the claim's absolute-jitter reading
does not match the code. -/
theorem risk_jitter_not_additive :
    (apply_risk_factors (fun _ => 100) ⟨50, 0, 0⟩ 2 ⟨fun _ => 1, 0⟩).1 0 ≠
      (apply_risk_factors_claimed (fun _ => 100) ⟨50, 0, 0⟩ 2 ⟨fun _ => 1, 0⟩).1 0 := by
  unfold apply_risk_factors apply_risk_factors_claimed npNormalVec
  norm_num [max_def]

/-- C4 amended: the jitter is relative, i.e. for `n > 1` and positive total
risk each multiplier is `base + (0.05·base)·z_i` — Gaussian around the base
multiplier `1 + total_risk_percent/100` with standard deviation
`0.05·base`, not 0.05 — floored at 1.0 and applied elementwise; for
`n ≤ 1` the deterministic base multiplier is applied with no jitter, and
for `total_risk_percent ≤ 0` the costs are returned unchanged. -/
theorem risk_adjustment_behaviour (costs : ℕ → ℝ) (risk : RiskParams)
    (n_sim : ℕ) (s : NpState) :
    (risk.tech_risk + risk.vendor_risk + risk.market_risk ≤ 0 →
      (apply_risk_factors costs risk n_sim s).1 = costs) ∧
    (0 < risk.tech_risk + risk.vendor_risk + risk.market_risk → n_sim ≤ 1 →
      ∀ i, (apply_risk_factors costs risk n_sim s).1 i =
        costs i * (1 + (risk.tech_risk + risk.vendor_risk + risk.market_risk) / 100)) ∧
    (0 < risk.tech_risk + risk.vendor_risk + risk.market_risk → 1 < n_sim →
      ∀ i, (apply_risk_factors costs risk n_sim s).1 i =
        costs i *
          max ((1 + (risk.tech_risk + risk.vendor_risk + risk.market_risk) / 100) +
            ((1 + (risk.tech_risk + risk.vendor_risk + risk.market_risk) / 100) * 0.05) *
              s.stream (s.pos + i)) 1) := by
  refine ⟨fun h => ?_, fun h hn => ?_, fun h hn => ?_⟩
  · unfold apply_risk_factors
    rw [if_pos h]
  · unfold apply_risk_factors
    rw [if_neg (not_le.mpr h), if_neg (not_lt.mpr hn)]
    intro i
    rfl
  · unfold apply_risk_factors
    rw [if_neg (not_le.mpr h), if_pos hn]
    intro i
    dsimp only [npNormalVec]
    have : (1 + (risk.tech_risk + risk.vendor_risk + risk.market_risk) / 100) *
        (1 + (0 + 0.05 * s.stream (s.pos + i))) =
        (1 + (risk.tech_risk + risk.vendor_risk + risk.market_risk) / 100) +
          ((1 + (risk.tech_risk + risk.vendor_risk + risk.market_risk) / 100) * 0.05) *
            s.stream (s.pos + i) := by ring
    rw [this]

/-- C4 amended witness: the jittered branch evaluated at a concrete cost
vector, risk mix, and stream. -/
theorem risk_adjustment_behaviour_witness :
    (apply_risk_factors (fun _ => 100) ⟨50, 0, 0⟩ 2 ⟨fun _ => 1, 0⟩).1 0 =
      100 * max ((1 + (50 + 0 + 0) / 100) + ((1 + (50 + 0 + 0) / 100) * 0.05) * 1) 1 :=
  (risk_adjustment_behaviour (fun _ => 100) ⟨50, 0, 0⟩ 2 ⟨fun _ => 1, 0⟩).2.2
    (by norm_num) (by norm_num) 0

/-- C10: when `maint_opex ≤ 0` the opex component is the exactly-zero
vector, no opex samples are drawn (the generator state is untouched), and
the whole simulation result — in particular `cost_distribution` — is
unchanged under any modification of `maint_opex_std`. -/
theorem opex_skipped_when_nonpositive (cfg : Config) (core : CoreParams)
    (risk : RiskParams) (cost : CostParams) (buy : BuyParams) (s : NpState)
    (stdNew : ℝ) (h : cost.maint_opex ≤ 0) :
    (calculate_opex_pv cost core cfg.n_simulations s).1 = (fun _ => 0) ∧
    (calculate_opex_pv cost core cfg.n_simulations s).2 = s ∧
    simulate_typed cfg core risk cost buy s =
      simulate_typed cfg core risk { cost with maint_opex_std := stdNew } buy s := by
  have h2 : ({ cost with maint_opex_std := stdNew } : CostParams).maint_opex ≤ 0 := h
  have hop : ∀ (n : ℕ) (st : NpState),
      calculate_opex_pv cost core n st = (fun _ => 0, st) := by
    intro n st
    unfold calculate_opex_pv
    rw [if_pos h]
  have hop2 : ∀ (n : ℕ) (st : NpState),
      calculate_opex_pv { cost with maint_opex_std := stdNew } core n st =
        (fun _ => 0, st) := by
    intro n st
    unfold calculate_opex_pv
    rw [if_pos h2]
  refine ⟨?_, ?_, ?_⟩
  · rw [hop]
  · rw [hop]
  · unfold simulate_typed simulate_build_costs
    simp only [hop, hop2]

/-- C10 witness: a concrete zero-opex configuration where the positive
`maint_opex_std` value 5 provably changes nothing. -/
theorem opex_skipped_when_nonpositive_witness :
    (calculate_opex_pv ⟨0, 0, 0, 0⟩ ⟨12, 0, 150000, 0, 1, 5, 0.8, 0.08, 0⟩ 2
        ⟨fun _ => 0, 0⟩).1 = (fun _ => 0) ∧
    (calculate_opex_pv ⟨0, 0, 0, 0⟩ ⟨12, 0, 150000, 0, 1, 5, 0.8, 0.08, 0⟩ 2
        ⟨fun _ => 0, 0⟩).2 = ⟨fun _ => 0, 0⟩ ∧
    simulate_typed ⟨2, 42⟩ ⟨12, 0, 150000, 0, 1, 5, 0.8, 0.08, 0⟩ ⟨0, 0, 0⟩
        ⟨0, 0, 0, 0⟩ ⟨0, 0, 0, []⟩ ⟨fun _ => 0, 0⟩ =
      simulate_typed ⟨2, 42⟩ ⟨12, 0, 150000, 0, 1, 5, 0.8, 0.08, 0⟩ ⟨0, 0, 0⟩
        ⟨0, 5, 0, 0⟩ ⟨0, 0, 0, []⟩ ⟨fun _ => 0, 0⟩ :=
  opex_skipped_when_nonpositive ⟨2, 42⟩ ⟨12, 0, 150000, 0, 1, 5, 0.8, 0.08, 0⟩
    ⟨0, 0, 0⟩ ⟨0, 0, 0, 0⟩ ⟨0, 0, 0, []⟩ ⟨fun _ => 0, 0⟩ 5 (le_refl 0)

/-- C3 counterexample: with every `*_std` field equal to 0 but
`tech_risk = 100` and two simulations, the per-simulation Gaussian risk
jitter produces the distribution `[300000, 315000]` — a 5% spread, so the
entries are not identical even up to floating-point tolerance: the claim
fails for nonzero risk fields with `n > 1`. -/
theorem zero_std_entries_differ :
    (simulate_typed ⟨2, 0⟩ ⟨12, 0, 150000, 0, 1, 5, 1, 0, 0⟩ ⟨100, 0, 0⟩
        ⟨0, 0, 0, 0⟩ ⟨0, 0, 0, []⟩ ⟨fun i => (i : ℝ), 0⟩).1.cost_distribution =
      [300000, 315000] ∧ (300000 : ℝ) ≠ 315000 := by
  constructor
  · unfold simulate_typed simulate_build_costs generate_samples calculate_opex_pv
      calculate_amortization_pv apply_risk_factors clean_samples npNormalVec npAdvance
      labor_pv_one calculate_results
    norm_num [Real.one_rpow, List.range_succ, max_def]
  · norm_num

/-- C3 amended: when all `*_std` fields are 0 AND additionally the total
risk percentage is non-positive or there is at most one simulation, every
entry of the returned `cost_distribution` is identical (exactly, in the
real-number model); with positive total risk and `n > 1` the per-simulation
risk jitter breaks the collapse. -/
theorem zero_std_collapse (cfg : Config) (core : CoreParams) (risk : RiskParams)
    (cost : CostParams) (buy : BuyParams) (s : NpState)
    (h1 : core.build_timeline_std = 0) (h2 : core.fte_cost_std = 0)
    (h3 : cost.maint_opex_std = 0)
    (h4 : risk.tech_risk + risk.vendor_risk + risk.market_risk ≤ 0 ∨ cfg.n_simulations ≤ 1) :
    ∀ x ∈ (simulate_typed cfg core risk cost buy s).1.cost_distribution,
      ∀ y ∈ (simulate_typed cfg core risk cost buy s).1.cost_distribution, x = y := by
  have hgen : ∀ (μ : ℝ) (st : NpState),
      generate_samples μ 0 cfg.n_simulations st = (fun _ => μ, st) := by
    intro μ st
    unfold generate_samples
    rw [if_neg (lt_irrefl 0)]
  have ham : calculate_amortization_pv cost.amortization (fun _ => core.build_timeline) core.wacc =
      fun _ => (if cost.amortization ≤ 0 then 0
        else amortization_pv_one cost.amortization core.build_timeline core.wacc) := by
    unfold calculate_amortization_pv
    split_ifs with h <;> rfl
  have hdist : ∀ i j, (simulate_build_costs cfg core risk cost s).1 i =
      (simulate_build_costs cfg core risk cost s).1 j := by
    intro i j
    have hrisk : ∀ (v : ℝ) (st : NpState) (k : ℕ),
        (apply_risk_factors (fun _ => v) risk cfg.n_simulations st).1 k =
          (apply_risk_factors (fun _ => v) risk cfg.n_simulations st).1 0 := by
      intro v st k
      dsimp only [apply_risk_factors]
      rcases h4 with h | h
      · rw [if_pos h]
      · rcases le_or_lt (risk.tech_risk + risk.vendor_risk + risk.market_risk) 0 with hT | hT
        · rw [if_pos hT]
        · rw [if_neg (not_le.mpr hT), if_neg (not_lt.mpr h)]
    unfold simulate_build_costs clean_samples
    rw [h1, h2]
    simp only [hgen, ham]
    rcases le_or_lt cost.maint_opex 0 with hc | hc
    · have hop : ∀ st : NpState, calculate_opex_pv cost core cfg.n_simulations st =
          (fun _ => 0, st) := by
        intro st
        unfold calculate_opex_pv
        rw [if_pos hc]
      simp only [hop]
      exact (hrisk _ _ i).trans (hrisk _ _ j).symm
    · have hop : ∀ st : NpState, calculate_opex_pv cost core cfg.n_simulations st =
          (fun _ => opex_pv_one cost.maint_opex (npRound core.useful_life).toNat core.wacc, st) := by
        intro st
        unfold calculate_opex_pv
        rw [if_neg (not_le.mpr hc), h3]
        simp only [hgen]
      simp only [hop]
      exact (hrisk _ _ i).trans (hrisk _ _ j).symm
  have hsub : (simulate_typed cfg core risk cost buy s).1.cost_distribution =
      (List.range cfg.n_simulations).map (simulate_build_costs cfg core risk cost s).1 := rfl
  intro x hx y hy
  rw [hsub, List.mem_map] at hx hy
  obtain ⟨i, _, rfl⟩ := hx
  obtain ⟨j, _, rfl⟩ := hy
  exact hdist i j

/-- C3 amended witness: a two-simulation, zero-std, zero-risk run in which
the first and second distribution entries coincide. -/
theorem zero_std_collapse_witness :
    (simulate_typed ⟨2, 0⟩ ⟨12, 0, 150000, 0, 1, 5, 1, 0, 0⟩ ⟨0, 0, 0⟩
        ⟨0, 0, 0, 0⟩ ⟨0, 0, 0, []⟩ ⟨fun _ => 0, 0⟩).1.cost_distribution.getD 0 0 =
      (simulate_typed ⟨2, 0⟩ ⟨12, 0, 150000, 0, 1, 5, 1, 0, 0⟩ ⟨0, 0, 0⟩
        ⟨0, 0, 0, 0⟩ ⟨0, 0, 0, []⟩ ⟨fun _ => 0, 0⟩).1.cost_distribution.getD 1 0 := by
  have hD : (simulate_typed ⟨2, 0⟩ ⟨12, 0, 150000, 0, 1, 5, 1, 0, 0⟩ ⟨0, 0, 0⟩
      ⟨0, 0, 0, 0⟩ ⟨0, 0, 0, []⟩ ⟨fun _ => 0, 0⟩).1.cost_distribution =
      [150000, 150000] := by
    unfold simulate_typed simulate_build_costs generate_samples calculate_opex_pv
      calculate_amortization_pv apply_risk_factors clean_samples npNormalVec npAdvance
      labor_pv_one calculate_results
    norm_num [Real.one_rpow, List.range_succ]
  exact zero_std_collapse ⟨2, 0⟩ ⟨12, 0, 150000, 0, 1, 5, 1, 0, 0⟩ ⟨0, 0, 0⟩
    ⟨0, 0, 0, 0⟩ ⟨0, 0, 0, []⟩ ⟨fun _ => 0, 0⟩ rfl rfl rfl (Or.inl (by norm_num))
    _ (by rw [hD]; simp) _ (by rw [hD]; simp)

/-- C8: for fixed non-negative nominal cash flows, increasing the WACC
does not increase any PV-discounted component: per-sample labor PV under
mid-period discounting, per-sample amortization PV under the compounded
monthly rate `(1+wacc)^(1/12) - 1`, and opex PV over `round(useful_life)`
years. -/
theorem wacc_monotone (labor t amort opex u w1 w2 : ℝ)
    (hl : 0 ≤ labor) (ha : 0 ≤ amort) (ho : 0 ≤ opex)
    (h0 : 0 ≤ w1) (h12 : w1 ≤ w2) :
    labor_pv_one labor t w2 ≤ labor_pv_one labor t w1 ∧
    amortization_pv_one amort t w2 ≤ amortization_pv_one amort t w1 ∧
    opex_pv_one opex (npRound u).toNat w2 ≤ opex_pv_one opex (npRound u).toNat w1 := by
  have hb1 : (0:ℝ) < 1 + w1 := by linarith
  have hb2 : (1:ℝ) + w1 ≤ 1 + w2 := by linarith
  have hrle : ∀ e : ℝ, 0 ≤ e → (1 + w1) ^ e ≤ (1 + w2) ^ e := fun e he =>
    Real.rpow_le_rpow (le_of_lt hb1) hb2 he
  have hrpos : ∀ e : ℝ, 0 < (1 + w1) ^ e := fun e => Real.rpow_pos_of_pos hb1 e
  refine ⟨?_, ?_, ?_⟩
  · unfold labor_pv_one
    dsimp only
    split_ifs with h hrf hrf
    · exact div_le_div_of_nonneg_left hl (hrpos _) (hrle _ (by norm_num))
    · have hy : (1:ℝ) < t / 12 := not_le.mp h
      have hcpy : 0 ≤ labor / (t / 12) := div_nonneg hl (by linarith)
      apply add_le_add
      · apply Finset.sum_le_sum
        intro y _
        exact div_le_div_of_nonneg_left hcpy (hrpos _) (hrle _ (by positivity))
      · apply div_le_div_of_nonneg_left (mul_nonneg hcpy (le_of_lt hrf)) (hrpos _)
        apply hrle
        have : (0:ℝ) ≤ (⌊t / 12⌋₊ : ℝ) := by positivity
        linarith
    · have hy : (1:ℝ) < t / 12 := not_le.mp h
      have hcpy : 0 ≤ labor / (t / 12) := div_nonneg hl (by linarith)
      apply add_le_add
      · apply Finset.sum_le_sum
        intro y _
        exact div_le_div_of_nonneg_left hcpy (hrpos _) (hrle _ (by positivity))
      · exact le_refl 0
  · unfold amortization_pv_one
    dsimp only
    apply Finset.sum_le_sum
    intro m _
    have e1 : (1 : ℝ) + ((1 + w1) ^ ((1:ℝ) / 12) - 1) = (1 + w1) ^ ((1:ℝ) / 12) := by ring
    have e2 : (1 : ℝ) + ((1 + w2) ^ ((1:ℝ) / 12) - 1) = (1 + w2) ^ ((1:ℝ) / 12) := by ring
    rw [e1, e2]
    exact div_le_div_of_nonneg_left ha (pow_pos (hrpos _) m)
      (pow_le_pow_left₀ (le_of_lt (hrpos _)) (hrle _ (by norm_num)) m)
  · unfold opex_pv_one
    apply Finset.sum_le_sum
    intro y _
    exact div_le_div_of_nonneg_left ho (pow_pos hb1 y) (pow_le_pow_left₀ (le_of_lt hb1) hb2 y)

/-- C8 witness: a concrete non-negative cash-flow configuration with the
WACC raised from 0 to 1. -/
theorem wacc_monotone_witness :
    labor_pv_one 100 18 1 ≤ labor_pv_one 100 18 0 ∧
    amortization_pv_one 10 18 1 ≤ amortization_pv_one 10 18 0 ∧
    opex_pv_one 5 (npRound (5:ℝ)).toNat 1 ≤ opex_pv_one 5 (npRound (5:ℝ)).toNat 0 :=
  wacc_monotone 100 18 10 5 5 0 1 (by norm_num) (by norm_num) (by norm_num)
    (by norm_num) (by norm_num)

/-- Samples generated around a non-negative mean are non-negative: a raw
draw is kept only when positive, and otherwise replaced by the mean. -/
theorem gen_nonneg (mean std : ℝ) (n : ℕ) (st : NpState) (hm : 0 ≤ mean) (i : ℕ) :
    0 ≤ (generate_samples mean std n st).1 i := by
  unfold generate_samples
  split_ifs with h
  · dsimp only
    split_ifs with h2
    · exact hm
    · exact le_of_lt (not_le.mp h2)
  · exact hm

/-- Labor PV of a non-negative labor cost at a non-negative rate is
non-negative, for any timeline. -/
theorem labor_pv_one_nonneg (labor t w : ℝ) (hl : 0 ≤ labor) (hw : 0 ≤ w) :
    0 ≤ labor_pv_one labor t w := by
  have hb : (0:ℝ) < 1 + w := by linarith
  unfold labor_pv_one
  dsimp only
  split_ifs with h hrf hrf
  · exact div_nonneg hl (le_of_lt (Real.rpow_pos_of_pos hb _))
  · have hy : (1:ℝ) < t / 12 := not_le.mp h
    apply add_nonneg
    · apply Finset.sum_nonneg
      intro y _
      exact div_nonneg (div_nonneg hl (by linarith)) (le_of_lt (Real.rpow_pos_of_pos hb _))
    · exact div_nonneg (mul_nonneg (div_nonneg hl (by linarith)) (le_of_lt hrf))
        (le_of_lt (Real.rpow_pos_of_pos hb _))
  · have hy : (1:ℝ) < t / 12 := not_le.mp h
    apply add_nonneg
    · apply Finset.sum_nonneg
      intro y _
      exact div_nonneg (div_nonneg hl (by linarith)) (le_of_lt (Real.rpow_pos_of_pos hb _))
    · exact le_refl 0

/-- Amortization PV of a non-negative payment at a non-negative rate is
non-negative. -/
theorem amortization_pv_one_nonneg (a t w : ℝ) (ha : 0 ≤ a) (hw : 0 ≤ w) :
    0 ≤ amortization_pv_one a t w := by
  have hb : (0:ℝ) < 1 + w := by linarith
  unfold amortization_pv_one
  dsimp only
  apply Finset.sum_nonneg
  intro m _
  have e1 : (1:ℝ) + ((1 + w) ^ ((1:ℝ)/12) - 1) = (1 + w) ^ ((1:ℝ)/12) := by ring
  rw [e1]
  exact div_nonneg ha (le_of_lt (pow_pos (Real.rpow_pos_of_pos hb _) m))

/-- Opex PV of a non-negative charge at a non-negative rate is
non-negative. -/
theorem opex_pv_one_nonneg (o : ℝ) (life : ℕ) (w : ℝ) (ho : 0 ≤ o) (hw : 0 ≤ w) :
    0 ≤ opex_pv_one o life w := by
  unfold opex_pv_one
  apply Finset.sum_nonneg
  intro y _
  exact div_nonneg ho (le_of_lt (pow_pos (by linarith) y))

/-- The amortization PV vector is pointwise non-negative. -/
theorem amort_vec_nonneg (a : ℝ) (tl : ℕ → ℝ) (w : ℝ) (hw : 0 ≤ w) (i : ℕ) :
    0 ≤ calculate_amortization_pv a tl w i := by
  unfold calculate_amortization_pv
  split_ifs with h
  · exact le_refl 0
  · exact amortization_pv_one_nonneg a (tl i) w (le_of_lt (not_le.mp h)) hw

/-- The opex PV vector is pointwise non-negative. -/
theorem opex_vec_nonneg (cost : CostParams) (core : CoreParams) (n : ℕ)
    (st : NpState) (hw : 0 ≤ core.wacc) (i : ℕ) :
    0 ≤ (calculate_opex_pv cost core n st).1 i := by
  unfold calculate_opex_pv
  split_ifs with h
  · exact le_refl 0
  · exact opex_pv_one_nonneg _ _ _ (gen_nonneg _ _ _ _ (le_of_lt (not_le.mp h)) i) hw

/-- Raising the risk parameters componentwise can only raise each entry of
the risk-adjusted cost vector, provided the pre-risk entry is
non-negative. -/
theorem apply_risk_pointwise (v : ℕ → ℝ) (r r' : RiskParams) (n : ℕ) (st : NpState)
    (i : ℕ) (h1 : r.tech_risk ≤ r'.tech_risk) (h2 : r.vendor_risk ≤ r'.vendor_risk)
    (h3 : r.market_risk ≤ r'.market_risk) (hvi : 0 ≤ v i) :
    (apply_risk_factors v r n st).1 i ≤ (apply_risk_factors v r' n st).1 i := by
  dsimp only [apply_risk_factors]
  rcases le_or_lt (r'.tech_risk + r'.vendor_risk + r'.market_risk) 0 with hT' | hT'
  · rw [if_pos (by linarith : r.tech_risk + r.vendor_risk + r.market_risk ≤ 0), if_pos hT']
  · rw [if_neg (not_le.mpr hT')]
    rcases le_or_lt (r.tech_risk + r.vendor_risk + r.market_risk) 0 with hT0 | hT0
    · rw [if_pos hT0]
      split_ifs with hn
      · exact le_mul_of_one_le_right hvi (le_max_right _ 1)
      · apply le_mul_of_one_le_right hvi
        have : (0:ℝ) < (r'.tech_risk + r'.vendor_risk + r'.market_risk) / 100 := by positivity
        linarith
    · rw [if_neg (not_le.mpr hT0)]
      split_ifs with hn
      · dsimp only [npNormalVec]
        apply mul_le_mul_of_nonneg_left _ hvi
        have hrm : (0:ℝ) < 1 + (r.tech_risk + r.vendor_risk + r.market_risk) / 100 := by
          have : (0:ℝ) < (r.tech_risk + r.vendor_risk + r.market_risk) / 100 := by positivity
          linarith
        have hrm' : 1 + (r.tech_risk + r.vendor_risk + r.market_risk) / 100 ≤
            1 + (r'.tech_risk + r'.vendor_risk + r'.market_risk) / 100 := by
          have : (r.tech_risk + r.vendor_risk + r.market_risk) / 100 ≤
              (r'.tech_risk + r'.vendor_risk + r'.market_risk) / 100 := by linarith
          linarith
        rcases le_or_lt 0 (1 + (0 + 0.05 * st.stream (st.pos + i))) with hz | hz
        · exact max_le_max (mul_le_mul_of_nonneg_right hrm' hz) (le_refl 1)
        · have p1 : (1 + (r.tech_risk + r.vendor_risk + r.market_risk) / 100) *
              (1 + (0 + 0.05 * st.stream (st.pos + i))) ≤ 0 :=
            mul_nonpos_of_nonneg_of_nonpos (le_of_lt hrm) (le_of_lt hz)
          have p2 : (1 + (r'.tech_risk + r'.vendor_risk + r'.market_risk) / 100) *
              (1 + (0 + 0.05 * st.stream (st.pos + i))) ≤ 0 :=
            mul_nonpos_of_nonneg_of_nonpos (by linarith) (le_of_lt hz)
          rw [max_eq_right (le_trans p1 zero_le_one), max_eq_right (le_trans p2 zero_le_one)]
      · apply mul_le_mul_of_nonneg_left _ hvi
        linarith

/-- Sum of a mapped `List.range` as a `Finset.range` sum. -/
theorem sum_map_range (n : ℕ) (f : ℕ → ℝ) :
    ((List.range n).map f).sum = ∑ i in Finset.range n, f i := by
  induction n with
  | zero => simp
  | succ k ih =>
    rw [List.range_succ, List.map_append, List.sum_append, Finset.sum_range_succ, ih]
    simp

/-- `np.mean` over index-mapped vectors is monotone in the vector. -/
theorem npMean_mapRange_le (n : ℕ) (f g : ℕ → ℝ) (h : ∀ i, f i ≤ g i) :
    npMean ((List.range n).map f) ≤ npMean ((List.range n).map g) := by
  unfold npMean
  simp only [List.length_map, List.length_range, sum_map_range]
  apply div_le_div_of_nonneg_right _ (by positivity)
  exact Finset.sum_le_sum fun i _ => h i

/-- C7: with non-negative nominal cash flows (and a non-negative discount
rate and positive success probability, under which all PV components are
non-negative), increasing any of the risk fields — componentwise, so in
particular any single one of tech/vendor/market risk with the others
fixed — does not decrease `expected_build_cost`, including across the
boundary from non-positive to positive total risk. -/
theorem risk_monotone (cfg : Config) (core : CoreParams) (cost : CostParams)
    (buy : BuyParams) (s : NpState) (risk risk' : RiskParams)
    (hbt : 0 ≤ core.build_timeline) (hfc : 0 ≤ core.fte_cost)
    (hcount : 0 ≤ core.fte_count) (hps : 0 < core.prob_success)
    (hw : 0 ≤ core.wacc) (hcapex : 0 ≤ cost.capex) (hmisc : 0 ≤ core.misc_costs)
    (ht : risk.tech_risk ≤ risk'.tech_risk)
    (hv : risk.vendor_risk ≤ risk'.vendor_risk)
    (hm : risk.market_risk ≤ risk'.market_risk) :
    (simulate_typed cfg core risk cost buy s).1.expected_build_cost ≤
      (simulate_typed cfg core risk' cost buy s).1.expected_build_cost := by
  have e1 : ∀ rk : RiskParams,
      (simulate_typed cfg core rk cost buy s).1.expected_build_cost =
        npMean ((List.range cfg.n_simulations).map
          (simulate_build_costs cfg core rk cost s).1) := fun rk => rfl
  rw [e1, e1]
  apply npMean_mapRange_le
  intro i
  dsimp only [simulate_build_costs, clean_samples]
  apply apply_risk_pointwise _ _ _ _ _ _ ht hv hm
  apply add_nonneg
  apply add_nonneg
  apply add_nonneg
  apply add_nonneg
  · apply labor_pv_one_nonneg _ _ _ _ hw
    apply div_nonneg _ (le_of_lt hps)
    apply mul_nonneg _ hcount
    apply mul_nonneg _ (gen_nonneg _ _ _ _ hfc i)
    exact div_nonneg (gen_nonneg _ _ _ _ hbt i) (by norm_num)
  · exact hcapex
  · exact amort_vec_nonneg _ _ _ hw i
  · exact opex_vec_nonneg _ _ _ _ hw i
  · exact hmisc

/-- C7 witness: raising tech risk from 0 to 10 with the other risks fixed
at a concrete non-negative-cash-flow configuration. -/
theorem risk_monotone_witness :
    (simulate_typed ⟨2, 0⟩ ⟨12, 0, 150000, 0, 1, 5, 0.8, 0.08, 0⟩ ⟨0, 0, 0⟩
        ⟨0, 0, 0, 0⟩ ⟨0, 0, 0, []⟩ ⟨fun _ => 0, 0⟩).1.expected_build_cost ≤
      (simulate_typed ⟨2, 0⟩ ⟨12, 0, 150000, 0, 1, 5, 0.8, 0.08, 0⟩ ⟨10, 0, 0⟩
        ⟨0, 0, 0, 0⟩ ⟨0, 0, 0, []⟩ ⟨fun _ => 0, 0⟩).1.expected_build_cost :=
  risk_monotone ⟨2, 0⟩ ⟨12, 0, 150000, 0, 1, 5, 0.8, 0.08, 0⟩ ⟨0, 0, 0, 0⟩
    ⟨0, 0, 0, []⟩ ⟨fun _ => 0, 0⟩ ⟨0, 0, 0⟩ ⟨10, 0, 0⟩ (by norm_num) (by norm_num)
    (by norm_num) (by norm_num) (by norm_num) (by norm_num) (by norm_num)
    (by norm_num) (by norm_num) (by norm_num)

end BuildBuy

end
